import Mathlib

/-!
Verification development for the aioclock task-clock library.

The trigger engine (`aioclock/triggers.py`) and the scheduler
(`aioclock/app.py`, `aioclock/group.py`) are embedded shallowly:

* Timezone-aware datetimes in a fixed-offset zone (the zones exercised here,
  UTC and Europe/Istanbul, have a constant offset) are modelled as integer
  microseconds since the Unix epoch, read on the local wall clock.  For a
  fixed-offset zone every operation the source performs on aware datetimes
  (field replacement, `timedelta` addition, comparison, `timestamp()`
  subtraction, `total_seconds()`) agrees with plain integer arithmetic on
  this representation, so the embedding is exact; float rounding of
  `timestamp()` is ignored (all quantities compared are whole microseconds).
* Trigger objects become structures; the mutable `_current_loop_count` is
  threaded explicitly, `trigger_next` becomes a state-to-state function.
* Fallible code returns `Except String` (a raised `ValueError` is `.error`).
* `asyncio` effects (sleeping) are not part of any claim and are dropped;
  `asyncio.gather` phases in `AioClock.serve` are modelled by the list of
  tasks they invoke plus a flag telling whether some callable raised.
-/

namespace AioclockSpec

/-! ## custom_types.py -/

/-- The trigger kind discriminants (`Triggers` enum in `custom_types.py`). -/
inductive Triggers where
  | CRON
  | EVERY
  | ONCE
  | FOREVER
  | ON_START_UP
  | ON_SHUT_DOWN
  | AT
deriving DecidableEq, Repr

/-- The weekday/day selector literals (`EveryT` in `custom_types.py`). -/
inductive EveryT where
  | every_monday
  | every_tuesday
  | every_wednesday
  | every_thursday
  | every_friday
  | every_saturday
  | every_sunday
  | every_day
deriving DecidableEq, Repr

/-! ## A fixed-offset timezone-aware datetime model -/

/-- Microseconds per second. -/
def usPerSecond : Int := 1000000

/-- Microseconds per day. -/
def usPerDay : Int := 86400 * 1000000

/-- The `datetime.weekday()`: Monday is 0, Sunday is 6.  The Unix epoch
1970-01-01 was a Thursday (weekday 3).  `Int.fdiv` is Python's floor
division. -/
def weekday (t : Int) : Int := (t.fdiv usPerDay + 3).emod 7

/-- The `now.replace(hour=h, minute=m, second=s, microsecond=0)`.
`datetime.replace` raises `ValueError` when a field is out of the range
`datetime` itself supports (hour 0..23, minute 0..59, second 0..59); the
raise is modelled by `.error` with CPython's message. -/
def replace_hms (t : Int) (hour minute second : Nat) : Except String Int :=
  if 23 < hour then .error "hour must be in 0..23"
  else if 59 < minute then .error "minute must be in 0..59"
  else if 59 < second then .error "second must be in 0..59"
  else .ok (usPerDay * (t.fdiv usPerDay)
    + ((hour : Int) * 3600 + (minute : Int) * 60 + (second : Int)) * usPerSecond)

/-! ## triggers.py: LoopController base class -/

/-- The `LoopController.should_trigger` (triggers.py lines 148-159): fire while
`max_loop_count` is `None` or `_current_loop_count < max_loop_count`. -/
def loopShouldTrigger (max_loop_count : Option Nat) (current_loop_count : Nat) : Bool :=
  match max_loop_count with
  | none => true
  | some m => current_loop_count < m

/-- The `LoopController.validate_loop_controll` (triggers.py lines 136-140):
raise when `"_current_loop_count"` is among the explicitly-set model fields. -/
def validate_loop_controll (model_fields_set : List String) : Except String Unit :=
  if model_fields_set.contains "_current_loop_count"
  then .error "_current_loop_count is a private attribute, should not be provided."
  else .ok ()

/-- Pydantic v2 construction keyword handling: only declared model fields
enter validation and `model_fields_set`; an underscore-prefixed name such as
`_current_loop_count` is a *private attribute*, not a field, so pydantic
strips it from the keyword arguments before validation (default
`extra` behavior ignores unknown keys).  Hence
`model_fields_set = provided ∩ model_fields`. -/
def pydanticFieldsSet (provided_keys model_fields : List String) : List String :=
  provided_keys.filter (fun k => model_fields.contains k)

/-! ## triggers.py: Forever -/

/-- The `Forever` trigger carries no state. -/
structure Forever where
deriving DecidableEq, Repr

/-- The `BaseTrigger.should_trigger`, inherited by `Forever`: always `True`. -/
def Forever.should_trigger (_ : Forever) : Bool := true

/-- The `Forever.get_waiting_time_till_next_trigger`: always returns `0`
(`some` is a returned number, `none` would be Python's `None`). -/
def Forever.get_waiting_time_till_next_trigger (_ : Forever) : Option ℚ := some 0

/-! ## triggers.py: Once / OnStartUp / OnShutDown -/

/-- State of a `Once` trigger: its private loop counter. -/
structure Once where
  _current_loop_count : Nat
deriving DecidableEq, Repr

/-- The `Once.max_loop_count` is `Literal[1]`. -/
def Once.max_loop_count : Nat := 1

/-- The `Once.type_`. -/
def Once.type_ : Triggers := Triggers.ONCE

/-- The `Once.trigger_next`: `self._increment_loop_counter()`. -/
def Once.trigger_next (t : Once) : Once :=
  { _current_loop_count := t._current_loop_count + 1 }

/-- The `Once.should_trigger`, inherited from `LoopController`. -/
def Once.should_trigger (t : Once) : Bool :=
  loopShouldTrigger (some Once.max_loop_count) t._current_loop_count

/-- The `Once.get_waiting_time_till_next_trigger` (triggers.py lines 188-197):
`0` on the first evaluation, `None` afterwards. -/
def Once.get_waiting_time_till_next_trigger (t : Once) : Option ℚ :=
  if t._current_loop_count = 0 then some 0 else none

/-- State of an `OnStartUp` trigger. -/
structure OnStartUp where
  _current_loop_count : Nat
deriving DecidableEq, Repr

/-- The `OnStartUp.max_loop_count` is `Literal[1]`. -/
def OnStartUp.max_loop_count : Nat := 1

/-- The `OnStartUp.type_`. -/
def OnStartUp.type_ : Triggers := Triggers.ON_START_UP

/-- The `OnStartUp.trigger_next`. -/
def OnStartUp.trigger_next (t : OnStartUp) : OnStartUp :=
  { _current_loop_count := t._current_loop_count + 1 }

/-- The `OnStartUp.should_trigger`, inherited from `LoopController`. -/
def OnStartUp.should_trigger (t : OnStartUp) : Bool :=
  loopShouldTrigger (some OnStartUp.max_loop_count) t._current_loop_count

/-- The `OnStartUp.get_waiting_time_till_next_trigger` (triggers.py lines 217-226). -/
def OnStartUp.get_waiting_time_till_next_trigger (t : OnStartUp) : Option ℚ :=
  if t._current_loop_count = 0 then some 0 else none

/-- State of an `OnShutDown` trigger. -/
structure OnShutDown where
  _current_loop_count : Nat
deriving DecidableEq, Repr

/-- The `OnShutDown.max_loop_count` is `Literal[1]`. -/
def OnShutDown.max_loop_count : Nat := 1

/-- The `OnShutDown.type_`. -/
def OnShutDown.type_ : Triggers := Triggers.ON_SHUT_DOWN

/-- The `OnShutDown.trigger_next`. -/
def OnShutDown.trigger_next (t : OnShutDown) : OnShutDown :=
  { _current_loop_count := t._current_loop_count + 1 }

/-- The `OnShutDown.should_trigger`, inherited from `LoopController`. -/
def OnShutDown.should_trigger (t : OnShutDown) : Bool :=
  loopShouldTrigger (some OnShutDown.max_loop_count) t._current_loop_count

/-- The `OnShutDown.get_waiting_time_till_next_trigger` (triggers.py lines 246-255). -/
def OnShutDown.get_waiting_time_till_next_trigger (t : OnShutDown) : Option ℚ :=
  if t._current_loop_count = 0 then some 0 else none

/-! ## triggers.py: Every -/

/-- The `first_run_strategy` literal. -/
inductive FirstRunStrategy where
  | immediate
  | wait
deriving DecidableEq, Repr

/-- State of an `Every` trigger.  The five time-unit fields are
`PositiveNumber` (`int | float`, `ge=0`) or `None`; exact numbers are
modelled as rationals. -/
structure Every where
  first_run_strategy : FirstRunStrategy
  seconds : Option ℚ
  minutes : Option ℚ
  hours : Option ℚ
  days : Option ℚ
  weeks : Option ℚ
  max_loop_count : Option Nat
  _current_loop_count : Nat
deriving DecidableEq, Repr

/-- The `Every.to_seconds` (triggers.py lines 291-309): `self.seconds or 0`
then add weeks, days, hours, minutes converted to seconds.  (`x or 0` gives
`0` both for `None` and for a zero value, so it is `getD 0`.) -/
def Every.to_seconds (e : Every) : ℚ :=
  let result : ℚ := e.seconds.getD 0
  let result : ℚ := match e.weeks with
    | some w => result + w * 604800
    | none => result
  let result : ℚ := match e.days with
    | some d => result + d * 86400
    | none => result
  let result : ℚ := match e.hours with
    | some h => result + h * 3600
    | none => result
  let result : ℚ := match e.minutes with
    | some m => result + m * 60
    | none => result
  result

/-- The `Every.should_trigger`, inherited from `LoopController`. -/
def Every.should_trigger (e : Every) : Bool :=
  loopShouldTrigger e.max_loop_count e._current_loop_count

/-- The `Every.trigger_next` state change: increment the counter (the
conditional `asyncio.sleep` is a pure time effect). -/
def Every.trigger_next (e : Every) : Every :=
  { e with _current_loop_count := e._current_loop_count + 1 }

/-- The `Every.get_waiting_time_till_next_trigger` (triggers.py lines 321-333). -/
def Every.get_waiting_time_till_next_trigger (e : Every) : Option ℚ :=
  if e._current_loop_count = 0 ∧ e.first_run_strategy = FirstRunStrategy.immediate
  then some 0
  else if e.should_trigger then some e.to_seconds
  else none

/-! ## triggers.py: At -/

/-- The `WEEK_TO_SECOND` (triggers.py line 335). -/
def WEEK_TO_SECOND : Int := 604800

/-- State of an `At` trigger.  `second`, `minute`, `hour` passed pydantic's
`Interval` checks (0..59, 0..59, 0..24). -/
structure At where
  second : Nat
  minute : Nat
  hour : Nat
  at_ : EveryT
  tz : String
  max_loop_count : Option Nat
  _current_loop_count : Nat
deriving DecidableEq, Repr

/-- The `At.type_`. -/
def At.type_ : Triggers := Triggers.AT

/-- The `target_weekday` dictionary inside `At._shift_to_week`
(triggers.py lines 389-398). -/
def target_weekday : EveryT → Option Int
  | EveryT.every_monday => some 0
  | EveryT.every_tuesday => some 1
  | EveryT.every_wednesday => some 2
  | EveryT.every_thursday => some 3
  | EveryT.every_friday => some 4
  | EveryT.every_saturday => some 5
  | EveryT.every_sunday => some 6
  | EveryT.every_day => none

/-- The `At._shift_to_week` (triggers.py lines 378-417), on microsecond
timestamps.  The float comparison
`target_time.timestamp() - tz_aware_now.timestamp() < error_margin`
is `target_time - tz_aware_now < error_margin · 10^6` in microseconds.
The inner `if self.at == "every day"` branch of the source is kept even
though it is unreachable there (`target_weekday` is `None` for
`"every day"`, so that selector already returned above). -/
def At._shift_to_week (a : At) (target_time tz_aware_now : Int) : Int :=
  match target_weekday a.at_ with
  | none =>
      if target_time < tz_aware_now then target_time + usPerDay else target_time
  | some tw =>
      let days_ahead := tw - weekday tz_aware_now
      let days_ahead := if days_ahead ≤ 0 then days_ahead + 7 else days_ahead
      if a.at_ = EveryT.every_day then
        target_time + (if target_time < tz_aware_now then usPerDay else 0)
      else
        if days_ahead = 7 ∧
            target_time - tz_aware_now < (WEEK_TO_SECOND - 1) * usPerSecond then
          target_time
        else
          target_time + days_ahead * usPerDay

/-- The `At._get_next_ts` (triggers.py lines 419-433): build the candidate with
`replace`, shift it, return `(target_time - now).total_seconds()` — the
exact rational quotient of the microsecond difference by `10^6`; the
`ValueError` `replace` can raise propagates. -/
def At._get_next_ts (a : At) (now : Int) : Except String ℚ :=
  match replace_hms now a.hour a.minute a.second with
  | .error e => .error e
  | .ok target_time =>
      .ok (Rat.divInt (a._shift_to_week target_time now - now) usPerSecond)

/-- The `At.get_sleep_time` with an explicit evaluation time `now` (the source
defaults it to `datetime.now` in the configured zone). -/
def At.get_sleep_time (a : At) (now : Int) : Except String ℚ := a._get_next_ts now

/-- The `At.get_waiting_time_till_next_trigger` (triggers.py lines 450-460):
it returns `get_sleep_time` unconditionally — a number or a raised
`ValueError`, never Python's `None`. -/
def At.get_waiting_time_till_next_trigger (a : At) (now : Int) : Except String ℚ :=
  a.get_sleep_time now

/-- The `At.should_trigger`, inherited from `LoopController`. -/
def At.should_trigger (a : At) : Bool :=
  loopShouldTrigger a.max_loop_count a._current_loop_count

/-- The `At.trigger_next` state change: increment the counter (the sleep is a
time effect). -/
def At.trigger_next (a : At) : At :=
  { a with _current_loop_count := a._current_loop_count + 1 }

/-! ## triggers.py: Cron -/

/-- The `Cron` trigger: a cron expression and a timezone; no loop control. -/
structure Cron where
  cron : String
  tz : String
deriving DecidableEq, Repr

/-- The `Cron.type_`. -/
def Cron.type_ : Triggers := Triggers.CRON

/-- The `BaseTrigger.should_trigger`, inherited by `Cron`: always `True`. -/
def Cron.should_trigger (_ : Cron) : Bool := true

/-- The `Cron.get_waiting_time_till_next_trigger` (triggers.py line 93):
`croniter(self.cron, now).get_next(float) - now.timestamp()`.  The external
croniter library is abstracted as the function `get_next` from the current
timestamp to the next scheduled timestamp. -/
def Cron.get_waiting_time_till_next_trigger (_ : Cron) (get_next : ℚ → ℚ) (now : ℚ) : ℚ :=
  get_next now - now

/-! ## Construction-time validation

Pydantic first validates the declared fields (types, `Interval` bounds,
defaults), then runs the `@model_validator(mode="after")` methods. -/

/-- Models the external `zoneinfo.ZoneInfo` resolution, restricted to the
IANA zones this development uses (both with a constant UTC offset). -/
def validTz (tz : String) : Bool := tz = "UTC" || tz = "Europe/Istanbul"

/-- Python's `x is None` where `x` is the value of a *non-optional* int
field: after pydantic's field phase `At.second`, `At.minute` and `At.hour`
are ints (defaults applied), never `None`, so the test is always false. -/
def intFieldIsNone (_ : Int) : Bool := false

/-- The `Option.all` written out for the `PositiveNumber` bound `ge=0`. -/
def nonneg_number (o : Option ℚ) : Bool :=
  match o with
  | none => true
  | some q => decide (0 ≤ q)

/-- The `PositiveInt` bound for `max_loop_count` when supplied. -/
def positive_int (o : Option Nat) : Bool :=
  match o with
  | none => true
  | some n => decide (0 < n)

/-- Constructing an `Every` trigger: pydantic field validation
(`PositiveNumber`, `PositiveInt`) followed by
`Every.validate_time_units` (triggers.py lines 278-289). -/
def Every.construct (first_run_strategy : FirstRunStrategy)
    (seconds minutes hours days weeks : Option ℚ)
    (max_loop_count : Option Nat) : Except String Every :=
  if ¬ (nonneg_number seconds ∧ nonneg_number minutes ∧ nonneg_number hours
      ∧ nonneg_number days ∧ nonneg_number weeks) then
    .error "Input should be greater than or equal to 0"
  else if ¬ positive_int max_loop_count then
    .error "Input should be greater than 0"
  else if seconds = none ∧ minutes = none ∧ hours = none ∧ days = none ∧ weeks = none then
    .error "At least one time unit must be provided."
  else
    .ok { first_run_strategy := first_run_strategy, seconds := seconds,
          minutes := minutes, hours := hours, days := days, weeks := weeks,
          max_loop_count := max_loop_count, _current_loop_count := 0 }

/-- Constructing an `At` trigger: pydantic applies the defaults
(`second=0, minute=0, hour=0`) and the `Interval` bounds (`0..59`, `0..59`,
`0..24`), then `At.validate_time_units` (triggers.py lines 365-376) runs:
its check `self.second is None and self.minute is None and self.hour is
None` reads the *resolved* int fields, so each `is None` test is always
false, and only the timezone check can fire. -/
def At.construct (second minute hour : Option Int) (at_ : EveryT) (tz : String)
    (max_loop_count : Option Nat) : Except String At :=
  let second := second.getD 0
  let minute := minute.getD 0
  let hour := hour.getD 0
  if ¬ (0 ≤ second ∧ second ≤ 59) then .error "Input should be in the interval 0..59"
  else if ¬ (0 ≤ minute ∧ minute ≤ 59) then .error "Input should be in the interval 0..59"
  else if ¬ (0 ≤ hour ∧ hour ≤ 24) then .error "Input should be in the interval 0..24"
  else if ¬ positive_int max_loop_count then .error "Input should be greater than 0"
  else if intFieldIsNone second ∧ intFieldIsNone minute ∧ intFieldIsNone hour then
    .error "At least one time unit must be provided."
  else if ¬ validTz tz then .error "Invalid timezone provided"
  else
    .ok { second := second.toNat, minute := minute.toNat, hour := hour.toNat,
          at_ := at_, tz := tz, max_loop_count := max_loop_count,
          _current_loop_count := 0 }

/-- The pydantic model fields of `Once` (its declared public attributes).
`_current_loop_count` is underscore-prefixed, hence a private attribute and
*not* a model field. -/
def Once.model_fields : List String :=
  ["type_", "expected_trigger_time", "max_loop_count"]

/-- Constructing a `Once` trigger from the set of keyword names the caller
passed explicitly: pydantic keeps only model fields (private attributes and
unknown keys are ignored), then `validate_loop_controll` checks the
resulting `model_fields_set`.  Field *values* are irrelevant to that check
and are omitted. -/
def Once.construct (provided_keys : List String) : Except String Once :=
  match validate_loop_controll (pydanticFieldsSet provided_keys Once.model_fields) with
  | .error e => .error e
  | .ok _ => .ok { _current_loop_count := 0 }

/-! ## The specification's wording of the `At` weekday shift

These definitions transcribe the *specification's* description of the
weekday algorithm (spec §4.1), to be compared against the source's
`At._shift_to_week`.  The spec states the stay-today margin as "one day
minus a 1-second safety margin". -/

/-- Candidate shift exactly as the specification words it, for a
specific-weekday selector with target weekday `tw`. -/
def spec_weekday_candidate (tw candidate now : Int) : Int :=
  let days_ahead := tw - weekday now
  let days_ahead := if days_ahead ≤ 0 then days_ahead + 7 else days_ahead
  if days_ahead = 7 ∧ candidate - now < (86400 - 1) * usPerSecond then candidate
  else candidate + days_ahead * usPerDay

/-- The waiting time the specification's algorithm prescribes for a
specific-weekday `At` trigger with target weekday `tw`. -/
def spec_weekday_waiting (a : At) (tw : Int) (now : Int) : Except String ℚ :=
  match replace_hms now a.hour a.minute a.second with
  | .error e => .error e
  | .ok candidate =>
      .ok (Rat.divInt (spec_weekday_candidate tw candidate now - now) usPerSecond)

/-- The candidate `today at (hour, minute, second)` that
`At._get_next_ts` builds with `replace` (for in-range fields). -/
def candidate_of (a : At) (now : Int) : Int :=
  usPerDay * (now.fdiv usPerDay)
    + ((a.hour : Int) * 3600 + (a.minute : Int) * 60 + (a.second : Int)) * usPerSecond

/-- The `days_ahead` after the `≤ 0` adjustment, for target weekday `tw`. -/
def shifted_days (tw now : Int) : Int :=
  let d := tw - weekday now
  if d ≤ 0 then d + 7 else d

/-! ## app.py / group.py: tasks, groups, the scheduler -/

/-- A registered task, identified by an id and classified by its trigger's
kind tag (the only trigger data `AioClock.serve` consults). -/
structure Task where
  id : Nat
  type_ : Triggers
deriving DecidableEq, Repr

/-- A `Group` (group.py): an ordered list of tasks. -/
structure Group where
  _tasks : List Task
deriving DecidableEq, Repr

/-- The `AioClock` application state: included groups and the directly
app-registered tasks. -/
structure AioClock where
  _groups : List Group
  _app_tasks : List Task
deriving DecidableEq, Repr

/-- The `AioClock.include_group` (app.py line 106): append the group. -/
def AioClock.include_group (app : AioClock) (group : Group) : AioClock :=
  { app with _groups := app._groups ++ [group] }

/-- The `AioClock._tasks` (app.py lines 139-142): `flatten_chain` over all
groups' task lists. -/
def AioClock._tasks (app : AioClock) : List Task :=
  (app._groups.map Group._tasks).flatten

/-- The `AioClock._get_shutdown_task` (app.py lines 144-145). -/
def AioClock._get_shutdown_task (app : AioClock) : List Task :=
  app._tasks.filter (fun t => t.type_ = Triggers.ON_SHUT_DOWN)

/-- The `AioClock._get_startup_task` (app.py lines 147-148). -/
def AioClock._get_startup_task (app : AioClock) : List Task :=
  app._tasks.filter (fun t => t.type_ = Triggers.ON_START_UP)

/-- The `AioClock._get_tasks` (app.py lines 150-152) with the default
exclusion set: everything that is neither startup- nor
shutdown-classified. -/
def AioClock._get_tasks (app : AioClock) : List Task :=
  app._tasks.filter
    (fun t => ¬ (t.type_ = Triggers.ON_START_UP ∨ t.type_ = Triggers.ON_SHUT_DOWN))

/-- One `asyncio.gather(*(task.run() ...), return_exceptions=False)` phase:
every task of the phase has its `run()` invoked (gather schedules them
all); the phase raises iff some invoked callable raises. -/
def gatherPhase (raises : Task → Bool) (ts : List Task) : List Task × Bool :=
  (ts, ts.any raises)

/-- The `AioClock.serve` (app.py lines 154-174), structurally.  `raises` tells
which tasks' callables raise.  Returns the post-serve application state
(serve first appends a fresh group holding `_app_tasks`), the invocation
trace, and whether an exception propagates.  The `try` body runs the
startup gather, then — only if startup did not raise — the steady gather;
the `finally` always runs the shutdown gather. -/
def AioClock.serve (app : AioClock) (raises : Task → Bool) : AioClock × List Task × Bool :=
  let app := app.include_group { _tasks := app._app_tasks }
  let startupPhase := gatherPhase raises app._get_startup_task
  let steadyPhase :=
    if startupPhase.2 then ([], false) else gatherPhase raises app._get_tasks
  let shutdownPhase := gatherPhase raises app._get_shutdown_task
  (app, startupPhase.1 ++ steadyPhase.1 ++ shutdownPhase.1,
    startupPhase.2 || steadyPhase.2 || shutdownPhase.2)

/-- The state transition a single `serve()` call performs on the
registered set. -/
def AioClock.serveState (app : AioClock) : AioClock :=
  (app.serve (fun _ => false)).1

end AioclockSpec

deriving instance DecidableEq for Except

namespace AioclockSpec

/-! ## Helper lemmas -/

/-- Iterating `Once.trigger_next` `n` times from a fresh trigger gives loop
count `n`. -/
theorem once_iterate_count (n : Nat) :
    Once.trigger_next^[n] { _current_loop_count := 0 } = { _current_loop_count := n } := by
  induction n with
  | zero => rfl
  | succ k ih => rw [Function.iterate_succ_apply', ih]; rfl

/-- Iterating `OnStartUp.trigger_next` `n` times from a fresh trigger gives
loop count `n`. -/
theorem onstartup_iterate_count (n : Nat) :
    OnStartUp.trigger_next^[n] { _current_loop_count := 0 } = { _current_loop_count := n } := by
  induction n with
  | zero => rfl
  | succ k ih => rw [Function.iterate_succ_apply', ih]; rfl

/-- Iterating `OnShutDown.trigger_next` `n` times from a fresh trigger gives
loop count `n`. -/
theorem onshutdown_iterate_count (n : Nat) :
    OnShutDown.trigger_next^[n] { _current_loop_count := 0 } = { _current_loop_count := n } := by
  induction n with
  | zero => rfl
  | succ k ih => rw [Function.iterate_succ_apply', ih]; rfl

/-- Iterating `Every.trigger_next` adds `n` to the loop count and changes
nothing else. -/
theorem every_iterate_count (n : Nat) (e : Every) :
    Every.trigger_next^[n] e
      = { e with _current_loop_count := e._current_loop_count + n } := by
  induction n with
  | zero => rfl
  | succ k ih => rw [Function.iterate_succ_apply', ih]; rfl

/-- Iterating `At.trigger_next` adds `n` to the loop count and changes
nothing else. -/
theorem at_iterate_count (n : Nat) (a : At) :
    At.trigger_next^[n] a
      = { a with _current_loop_count := a._current_loop_count + n } := by
  induction n with
  | zero => rfl
  | succ k ih => rw [Function.iterate_succ_apply', ih]; rfl

/-- The `replace_hms` succeeds on in-range fields and builds
`today at (hour, minute, second)`. -/
theorem replace_hms_ok (t : Int) (h m s : Nat) (hh : h ≤ 23) (hm : m ≤ 59) (hs : s ≤ 59) :
    replace_hms t h m s = Except.ok (usPerDay * (t.fdiv usPerDay)
      + ((h : Int) * 3600 + (m : Int) * 60 + (s : Int)) * usPerSecond) := by
  unfold replace_hms
  rw [if_neg (by omega), if_neg (by omega), if_neg (by omega)]

/-! ## Claim theorems -/

/-- Claim C9 (confirmed): `Once`, `OnStartUp` and `OnShutDown` all fix
`max_loop_count` to 1, and after any number `n` of `trigger_next` calls
their `should_trigger` and `get_waiting_time_till_next_trigger` answers
coincide pairwise; they differ only in their `type_` kind tags. -/
theorem boundary_triggers_same_machine :
    Once.max_loop_count = 1 ∧ OnStartUp.max_loop_count = 1 ∧ OnShutDown.max_loop_count = 1
  ∧ (∀ n : Nat,
      (Once.trigger_next^[n] { _current_loop_count := 0 }).should_trigger
        = (OnStartUp.trigger_next^[n] { _current_loop_count := 0 }).should_trigger
    ∧ (OnStartUp.trigger_next^[n] { _current_loop_count := 0 }).should_trigger
        = (OnShutDown.trigger_next^[n] { _current_loop_count := 0 }).should_trigger
    ∧ (Once.trigger_next^[n] { _current_loop_count := 0 }).get_waiting_time_till_next_trigger
        = (OnStartUp.trigger_next^[n] { _current_loop_count := 0 }).get_waiting_time_till_next_trigger
    ∧ (OnStartUp.trigger_next^[n] { _current_loop_count := 0 }).get_waiting_time_till_next_trigger
        = (OnShutDown.trigger_next^[n] { _current_loop_count := 0 }).get_waiting_time_till_next_trigger)
  ∧ Once.type_ = Triggers.ONCE ∧ OnStartUp.type_ = Triggers.ON_START_UP
  ∧ OnShutDown.type_ = Triggers.ON_SHUT_DOWN := by
  refine ⟨rfl, rfl, rfl, ?_, rfl, rfl, rfl⟩
  intro n
  rw [once_iterate_count, onstartup_iterate_count, onshutdown_iterate_count]
  exact ⟨rfl, rfl, rfl, rfl⟩

/-- A single `serve()` call appends one fresh group holding the app-level
tasks and leaves `_app_tasks` itself unchanged. -/
theorem AioClock.serveState_eq (app : AioClock) :
    app.serveState
      = { _groups := app._groups ++ [{ _tasks := app._app_tasks }],
          _app_tasks := app._app_tasks } := rfl

/-- One `serve()` call appends the app-level tasks at the end of the
flattened task list. -/
theorem AioClock.serveState_tasks (app : AioClock) :
    app.serveState._tasks = app._tasks ++ app._app_tasks := by
  rw [AioClock.serveState_eq]
  simp [AioClock._tasks]

/-- Claim C10 (confirmed): each `serve()` call appends a new group with the
directly app-registered tasks, so after `k` calls the flattened task list
is the originally included groups' tasks followed by `k` copies of the
app-level task list, and `_app_tasks` is unchanged. -/
theorem serve_appends_app_tasks (app : AioClock) (k : Nat) :
    (AioClock.serveState^[k] app)._tasks
        = app._tasks ++ (List.replicate k app._app_tasks).flatten
  ∧ (AioClock.serveState^[k] app)._app_tasks = app._app_tasks := by
  induction k generalizing app with
  | zero => simp
  | succ m ih =>
      obtain ⟨h1, h2⟩ := ih app.serveState
      rw [Function.iterate_succ_apply]
      have happ : app.serveState._app_tasks = app._app_tasks := by
        rw [AioClock.serveState_eq]
      refine ⟨?_, h2.trans happ⟩
      rw [h1, AioClock.serveState_tasks, happ, List.replicate_succ,
        List.flatten_cons, List.append_assoc]

/-- Claim C5 (confirmed): under the structural `try (startup; steady) finally
(shutdown)` shape of `serve`, the shutdown-classified tasks invoked during
a `serve` call are exactly the registered `ON_SHUT_DOWN` tasks, once each,
for every raising behavior of the callered callables (in particular when a
startup or steady-state callable raises). -/
theorem serve_runs_shutdown_exactly_once (app : AioClock) (raises : Task → Bool) :
    ((app.serve raises).2.1).filter (fun t => t.type_ = Triggers.ON_SHUT_DOWN)
      = (app.serve raises).1._get_shutdown_task := by
  have hsu : ∀ l : List Task,
      (l.filter fun t => t.type_ = Triggers.ON_START_UP).filter
        (fun t => t.type_ = Triggers.ON_SHUT_DOWN) = [] := by
    intro l
    simp only [List.filter_filter, List.filter_eq_nil_iff, Bool.and_eq_true,
      decide_eq_true_eq]
    intro a _ hcontra
    rw [hcontra.2] at hcontra
    exact absurd hcontra.1 (by decide)
  have hst : ∀ l : List Task,
      (l.filter fun t =>
          ¬ (t.type_ = Triggers.ON_START_UP ∨ t.type_ = Triggers.ON_SHUT_DOWN)).filter
        (fun t => t.type_ = Triggers.ON_SHUT_DOWN) = [] := by
    intro l
    simp only [List.filter_filter, List.filter_eq_nil_iff, Bool.and_eq_true,
      decide_eq_true_eq]
    intro a _ hcontra
    exact hcontra.2 (Or.inr hcontra.1)
  have hsh : ∀ l : List Task,
      (l.filter fun t => t.type_ = Triggers.ON_SHUT_DOWN).filter
        (fun t => t.type_ = Triggers.ON_SHUT_DOWN)
      = l.filter fun t => t.type_ = Triggers.ON_SHUT_DOWN := by
    intro l
    simp [List.filter_filter]
  unfold AioClock.serve gatherPhase
  dsimp only
  set A := app.include_group { _tasks := app._app_tasks } with hA
  by_cases h : A._get_startup_task.any raises = true
  · rw [if_pos h]
    unfold AioClock._get_shutdown_task AioClock._get_startup_task
    dsimp only
    simp only [List.nil_append, List.filter_append, List.filter_nil, hsu, hsh]
  · rw [if_neg h]
    unfold AioClock._get_shutdown_task AioClock._get_startup_task AioClock._get_tasks
    simp only [List.filter_append, List.filter_nil, hsu, hst, hsh, List.nil_append]

/-- Claim C6 (code_bug): `At` accepts `hour = 24` at construction (the
declared range is 0..24), yet every evaluation of
`get_waiting_time_till_next_trigger` then raises the `ValueError` of
`datetime.replace`, contradicting the no-runtime-failure contract. -/
theorem at_hour24_runtime_error :
    At.construct none none (some 24) EveryT.every_day "UTC" none
      = Except.ok { second := 0, minute := 0, hour := 24, at_ := EveryT.every_day,
                    tz := "UTC", max_loop_count := none, _current_loop_count := 0 }
  ∧ ∀ now : Int,
      At.get_waiting_time_till_next_trigger
        { second := 0, minute := 0, hour := 24, at_ := EveryT.every_day, tz := "UTC",
          max_loop_count := none, _current_loop_count := 0 } now
        = Except.error "hour must be in 0..23" := by
  exact ⟨by decide, fun now => rfl⟩

/-- Claim C7 (code_bug): constructing a `LoopController`-derived trigger with
an explicit `_current_loop_count` keyword does *not* raise: pydantic strips
the private attribute before validation, so `validate_loop_controll` never
sees it in `model_fields_set`; construction silently succeeds with the
counter at 0 — whatever keyword names are supplied. -/
theorem construct_ignores_private_counter :
    ∀ provided_keys : List String,
      Once.construct provided_keys = Except.ok { _current_loop_count := 0 } := by
  intro keys
  unfold Once.construct validate_loop_controll pydanticFieldsSet
  rw [if_neg]
  intro hmem
  have hm : "_current_loop_count" ∈ keys.filter (fun k => Once.model_fields.contains k) := by
    simpa using hmem
  have : "_current_loop_count" ∈ Once.model_fields := by
    have h := List.mem_filter.mp hm
    simpa using h.2
  simp [Once.model_fields] at this

/-- Claim C8 (code_bug): an `Every` with no time unit is rejected at
construction, but an `At` with no time unit supplied is *accepted*: the
`is None` check of `At.validate_time_units` can never fire because the
fields are non-optional ints defaulting to 0. -/
theorem time_unit_validation_status :
    Every.construct FirstRunStrategy.wait none none none none none none
      = Except.error "At least one time unit must be provided."
  ∧ At.construct none none none EveryT.every_day "UTC" none
      = Except.ok { second := 0, minute := 0, hour := 0, at_ := EveryT.every_day,
                    tz := "UTC", max_loop_count := none, _current_loop_count := 0 } := by
  exact ⟨by decide, by decide⟩

/-- Claim C2 counterexample: an `At` trigger with `max_loop_count = 1`, after
exactly one `trigger_next` call, has `should_trigger() = False` yet
`get_waiting_time_till_next_trigger()` still returns a number (here `0.0`),
not `None` — refuting the claim for the `At` variant. -/
theorem at_exhausted_returns_number_cex :
    (At.trigger_next
      { second := 0, minute := 0, hour := 0, at_ := EveryT.every_day,
        tz := "UTC", max_loop_count := some 1, _current_loop_count := 0 }).should_trigger
      = false
  ∧ (At.trigger_next
      { second := 0, minute := 0, hour := 0, at_ := EveryT.every_day,
        tz := "UTC", max_loop_count := some 1,
        _current_loop_count := 0 }).get_waiting_time_till_next_trigger 0
      = Except.ok 0 := by
  exact ⟨rfl, by decide⟩

/-- Claim C3 counterexample: an `At` trigger on `every monday` at 00:00:00,
evaluated Monday 2024-04-01T01:00:00 in its zone, has
`should_trigger() = True` but returns the *negative* waiting time `-3600`,
refuting non-negativity. -/
theorem at_negative_waiting_cex :
    (At.should_trigger
      { second := 0, minute := 0, hour := 0, at_ := EveryT.every_monday,
        tz := "UTC", max_loop_count := none, _current_loop_count := 0 }) = true
  ∧ At.get_waiting_time_till_next_trigger
      { second := 0, minute := 0, hour := 0, at_ := EveryT.every_monday,
        tz := "UTC", max_loop_count := none, _current_loop_count := 0 } 1711933200000000
      = Except.ok (-3600)
  ∧ (-3600 : ℚ) < 0 := by
  exact ⟨rfl, by decide, by decide⟩

/-- Claim C4 counterexample: `Every(seconds=1, first_run_strategy=immediate,
max_loop_count=1)` returns `None` — not `to_seconds = 1` — on the second
evaluation, after one `trigger_next` call. -/
theorem every_immediate_maxed_cex :
    (Every.trigger_next
      { first_run_strategy := FirstRunStrategy.immediate, seconds := some 1,
        minutes := none, hours := none, days := none, weeks := none,
        max_loop_count := some 1,
        _current_loop_count := 0 }).get_waiting_time_till_next_trigger = none
  ∧ Every.to_seconds
      { first_run_strategy := FirstRunStrategy.immediate, seconds := some 1,
        minutes := none, hours := none, days := none, weeks := none,
        max_loop_count := some 1, _current_loop_count := 0 } = 1 := by
  exact ⟨by decide, by decide⟩

end AioclockSpec

namespace AioclockSpec

/-- A same-day candidate is always within the source's stay-today margin of
one week minus one second. -/
theorem candidate_margin (a : At) (now : Int)
    (hh : a.hour ≤ 23) (hm : a.minute ≤ 59) (hs : a.second ≤ 59) :
    candidate_of a now - now < (WEEK_TO_SECOND - 1) * usPerSecond := by
  have hfd : Int.fdiv now usPerDay = now / usPerDay :=
    Int.fdiv_eq_ediv now (by decide)
  unfold candidate_of
  rw [hfd]
  unfold WEEK_TO_SECOND usPerSecond usPerDay
  omega

/-- For a specific-weekday selector, `At._shift_to_week` keeps a same-day
candidate whenever `days_ahead = 7` (the margin always holds) and otherwise
pushes it `days_ahead` days forward. -/
theorem shift_to_week_spec (a : At) (now tw : Int)
    (hw : target_weekday a.at_ = some tw)
    (hh : a.hour ≤ 23) (hm : a.minute ≤ 59) (hs : a.second ≤ 59) :
    a._shift_to_week (candidate_of a now) now
      = candidate_of a now
        + (if shifted_days tw now = 7 then 0 else shifted_days tw now) * usPerDay := by
  have hnot : a.at_ ≠ EveryT.every_day := by
    intro hEq
    rw [hEq] at hw
    simp [target_weekday] at hw
  have hmargin := candidate_margin a now hh hm hs
  unfold At._shift_to_week
  rw [hw]
  dsimp only
  rw [if_neg hnot]
  have hsd : (if tw - weekday now ≤ 0 then tw - weekday now + 7 else tw - weekday now)
      = shifted_days tw now := rfl
  rw [hsd]
  by_cases h7 : shifted_days tw now = 7
  · rw [if_pos (And.intro h7 hmargin), if_pos h7]
    ring
  · rw [if_neg (fun hx => h7 hx.1), if_neg h7]

/-- Claim C1 (corrected): for every `At` trigger with a specific-weekday
selector and in-range fields, `get_waiting_time_till_next_trigger` returns
`(candidate - now)` seconds, where the candidate (today at
`(hour, minute, second)`) is pushed `days_ahead` days forward unless
`days_ahead = 7`: the source's stay-today margin is `WEEK_TO_SECOND - 1`
seconds — one week minus one second, not the claimed one day minus one
second — and a same-day candidate always satisfies it, so with
`days_ahead = 7` the trigger always fires today.  The Saturday example
still returns `518400`. -/
theorem at_weekday_waiting_formula :
    (∀ (a : At) (now tw : Int), target_weekday a.at_ = some tw →
      a.hour ≤ 23 → a.minute ≤ 59 → a.second ≤ 59 →
      a.get_waiting_time_till_next_trigger now
        = Except.ok (Rat.divInt
            (candidate_of a now
              + (if shifted_days tw now = 7 then 0 else shifted_days tw now) * usPerDay
              - now) usPerSecond))
  ∧ At.get_waiting_time_till_next_trigger
      { second := 0, minute := 0, hour := 14, at_ := EveryT.every_saturday,
        tz := "Europe/Istanbul", max_loop_count := none, _current_loop_count := 0 }
      1711893600000000
      = Except.ok 518400 := by
  constructor
  · intro a now tw hw hh hm hs
    unfold At.get_waiting_time_till_next_trigger At.get_sleep_time At._get_next_ts
    rw [replace_hms_ok now a.hour a.minute a.second hh hm hs]
    have hcand : usPerDay * (now.fdiv usPerDay)
        + ((a.hour : Int) * 3600 + (a.minute : Int) * 60 + (a.second : Int)) * usPerSecond
        = candidate_of a now := rfl
    rw [hcand]
    dsimp only
    rw [shift_to_week_spec a now tw hw hh hm hs]
  · decide

/-- Claim C1 witness: the formula applied to the spec's Sunday-60 example. -/
theorem at_weekday_waiting_formula_witness :
    At.get_waiting_time_till_next_trigger
      { second := 0, minute := 1, hour := 14, at_ := EveryT.every_sunday,
        tz := "UTC", max_loop_count := none, _current_loop_count := 0 } 1711893600000000
      = Except.ok 60 :=
  (at_weekday_waiting_formula.1
    { second := 0, minute := 1, hour := 14, at_ := EveryT.every_sunday,
      tz := "UTC", max_loop_count := none, _current_loop_count := 0 }
    1711893600000000 6 rfl (by decide) (by decide) (by decide)).trans (by decide)

/-- Claim C1 counterexample: at `now` = Sunday 2024-03-31T00:00:00 UTC with
target `every sunday` 23:59:59, the source's week-minus-one-second margin
keeps the candidate today and returns `86399`, while the claim's
day-minus-one-second margin would push a week out, to `691199`. -/
theorem at_weekday_day_margin_cex :
    At.get_waiting_time_till_next_trigger
      { second := 59, minute := 59, hour := 23, at_ := EveryT.every_sunday,
        tz := "UTC", max_loop_count := none, _current_loop_count := 0 } 1711843200000000
      = Except.ok 86399
  ∧ spec_weekday_waiting
      { second := 59, minute := 59, hour := 23, at_ := EveryT.every_sunday,
        tz := "UTC", max_loop_count := none, _current_loop_count := 0 } 6 1711843200000000
      = Except.ok 691199
  ∧ (86399 : ℚ) ≠ 691199 := by
  exact ⟨by decide, by decide, by decide⟩

end AioclockSpec

namespace AioclockSpec

/-- Claim C2 (corrected): after exactly `N` `trigger_next` calls on a fresh
loop-limited trigger with `max_loop_count = N`, `should_trigger()` is false
for every variant, and `get_waiting_time_till_next_trigger()` returns
`None` for `Once`, `OnStartUp`, `OnShutDown` (N = 1) and `Every` — but
`At` overrides it unconditionally and still returns a number. -/
theorem loop_exhaustion_after_max (N : Nat) (hN : 0 < N)
    (e : Every) (heM : e.max_loop_count = some N) (he0 : e._current_loop_count = 0)
    (a : At) (haM : a.max_loop_count = some N) (ha0 : a._current_loop_count = 0)
    (hh : a.hour ≤ 23) (hm : a.minute ≤ 59) (hs : a.second ≤ 59) (now : Int) :
    ((Once.trigger_next { _current_loop_count := 0 }).should_trigger = false
      ∧ (Once.trigger_next
          { _current_loop_count := 0 }).get_waiting_time_till_next_trigger = none)
  ∧ ((OnStartUp.trigger_next { _current_loop_count := 0 }).should_trigger = false
      ∧ (OnStartUp.trigger_next
          { _current_loop_count := 0 }).get_waiting_time_till_next_trigger = none)
  ∧ ((OnShutDown.trigger_next { _current_loop_count := 0 }).should_trigger = false
      ∧ (OnShutDown.trigger_next
          { _current_loop_count := 0 }).get_waiting_time_till_next_trigger = none)
  ∧ ((Every.trigger_next^[N] e).should_trigger = false
      ∧ (Every.trigger_next^[N] e).get_waiting_time_till_next_trigger = none)
  ∧ ((At.trigger_next^[N] a).should_trigger = false
      ∧ ∃ q : ℚ,
          (At.trigger_next^[N] a).get_waiting_time_till_next_trigger now
            = Except.ok q) := by
  refine ⟨⟨rfl, rfl⟩, ⟨rfl, rfl⟩, ⟨rfl, rfl⟩, ?_, ?_⟩
  · rw [every_iterate_count]
    constructor
    · simp [Every.should_trigger, loopShouldTrigger, heM, he0]
    · simp [Every.get_waiting_time_till_next_trigger, Every.should_trigger,
        loopShouldTrigger, heM, he0, Nat.pos_iff_ne_zero.mp hN]
  · rw [at_iterate_count]
    constructor
    · simp [At.should_trigger, loopShouldTrigger, haM, ha0]
    · unfold At.get_waiting_time_till_next_trigger At.get_sleep_time At._get_next_ts
      dsimp only
      rw [replace_hms_ok now a.hour a.minute a.second hh hm hs]
      exact ⟨_, rfl⟩

/-- Claim C2 witness: the exhaustion theorem applied with `N = 1`. -/
theorem loop_exhaustion_after_max_witness :
    ∃ q : ℚ,
      (At.trigger_next^[1]
        { second := 0, minute := 0, hour := 0, at_ := EveryT.every_day, tz := "UTC",
          max_loop_count := some 1,
          _current_loop_count := 0 }).get_waiting_time_till_next_trigger 0
        = Except.ok q :=
  (loop_exhaustion_after_max 1 (by decide)
    { first_run_strategy := FirstRunStrategy.wait, seconds := some 1, minutes := none,
      hours := none, days := none, weeks := none, max_loop_count := some 1,
      _current_loop_count := 0 } rfl rfl
    { second := 0, minute := 0, hour := 0, at_ := EveryT.every_day, tz := "UTC",
      max_loop_count := some 1, _current_loop_count := 0 } rfl rfl
    (by decide) (by decide) (by decide) 0).2.2.2.2.2

/-- The boundary triggers' waiting/should consistency as a function of the
loop counter. -/
theorem boundary_consistency (n : Nat) :
    ((if n = 0 then (some 0 : Option ℚ) else none) = none
      ↔ loopShouldTrigger (some 1) n = false)
  ∧ ∀ q : ℚ, (if n = 0 then (some 0 : Option ℚ) else none) = some q → 0 ≤ q := by
  by_cases hc : n = 0
  · refine ⟨by simp [hc, loopShouldTrigger], ?_⟩
    intro q hq
    rw [if_pos hc] at hq
    exact le_of_eq (Option.some.inj hq)
  · refine ⟨?_, ?_⟩
    · simp only [if_neg hc, loopShouldTrigger]
      simp
      omega
    · intro q hq
      rw [if_neg hc] at hq
      exact absurd hq (by simp)

/-- The `to_seconds` is non-negative when every supplied unit passed the
`PositiveNumber` (`ge=0`) bound. -/
theorem to_seconds_nonneg (e : Every)
    (h1 : nonneg_number e.seconds = true) (h2 : nonneg_number e.minutes = true)
    (h3 : nonneg_number e.hours = true) (h4 : nonneg_number e.days = true)
    (h5 : nonneg_number e.weeks = true) : 0 ≤ e.to_seconds := by
  rcases e with ⟨fs, s, m, h, d, w, M, cc⟩
  unfold Every.to_seconds
  dsimp only at *
  cases s <;> cases m <;> cases h <;> cases d <;> cases w <;>
    simp_all [nonneg_number] <;> linarith

/-- A fresh `Every` trigger (count 0) with a valid `max_loop_count` always
says it should trigger. -/
theorem every_fresh_should (e : Every) (hp : positive_int e.max_loop_count = true)
    (hc : e._current_loop_count = 0) : e.should_trigger = true := by
  unfold Every.should_trigger loopShouldTrigger
  cases hM : e.max_loop_count with
  | none => rfl
  | some m =>
      rw [hc]
      simp only [positive_int, hM, decide_eq_true_eq] at hp
      simpa using hp

/-- Claim C3 (corrected): the None-iff-not-should consistency and
non-negativity hold for `Once`, `OnStartUp`, `OnShutDown`, `Forever`,
`Every` (with validated fields) and `Cron` (under the croniter contract
that the next schedule time is not in the past) — but not for `At`, whose
override never returns `None` and can return a negative duration. -/
theorem waiting_none_iff_not_should
    (o : Once) (u : OnStartUp) (d : OnShutDown) (f : Forever) (e : Every)
    (hp : positive_int e.max_loop_count = true)
    (h1 : nonneg_number e.seconds = true) (h2 : nonneg_number e.minutes = true)
    (h3 : nonneg_number e.hours = true) (h4 : nonneg_number e.days = true)
    (h5 : nonneg_number e.weeks = true)
    (c : Cron) (get_next : ℚ → ℚ) (hnext : ∀ t, t ≤ get_next t) (now : ℚ) :
    (o.get_waiting_time_till_next_trigger = none ↔ o.should_trigger = false)
  ∧ (∀ q, o.get_waiting_time_till_next_trigger = some q → 0 ≤ q)
  ∧ (u.get_waiting_time_till_next_trigger = none ↔ u.should_trigger = false)
  ∧ (∀ q, u.get_waiting_time_till_next_trigger = some q → 0 ≤ q)
  ∧ (d.get_waiting_time_till_next_trigger = none ↔ d.should_trigger = false)
  ∧ (∀ q, d.get_waiting_time_till_next_trigger = some q → 0 ≤ q)
  ∧ (f.should_trigger = true ∧ f.get_waiting_time_till_next_trigger = some 0)
  ∧ (e.get_waiting_time_till_next_trigger = none ↔ e.should_trigger = false)
  ∧ (∀ q, e.get_waiting_time_till_next_trigger = some q → 0 ≤ q)
  ∧ (c.should_trigger = true
      ∧ 0 ≤ c.get_waiting_time_till_next_trigger get_next now) := by
  have eIff : e.get_waiting_time_till_next_trigger = none ↔ e.should_trigger = false := by
    unfold Every.get_waiting_time_till_next_trigger
    by_cases hc : e._current_loop_count = 0
    · have hsd := every_fresh_should e hp hc
      by_cases hi : e.first_run_strategy = FirstRunStrategy.immediate
      · rw [if_pos (And.intro hc hi), hsd]
        simp
      · rw [if_neg (fun hx => hi hx.2), hsd]
        simp
    · rw [if_neg (fun hx => hc hx.1)]
      cases hsb : e.should_trigger <;> simp [hsb]
  have eNN : ∀ q, e.get_waiting_time_till_next_trigger = some q → 0 ≤ q := by
    intro q hq
    unfold Every.get_waiting_time_till_next_trigger at hq
    split_ifs at hq with hA hB
    · exact le_of_eq (Option.some.inj hq)
    · have hts := to_seconds_nonneg e h1 h2 h3 h4 h5
      rw [Option.some.injEq] at hq
      exact hq ▸ hts
  refine ⟨(boundary_consistency o._current_loop_count).1,
    (boundary_consistency o._current_loop_count).2,
    (boundary_consistency u._current_loop_count).1,
    (boundary_consistency u._current_loop_count).2,
    (boundary_consistency d._current_loop_count).1,
    (boundary_consistency d._current_loop_count).2,
    ⟨rfl, rfl⟩, eIff, eNN, rfl, ?_⟩
  unfold Cron.get_waiting_time_till_next_trigger
  linarith [hnext now]

/-- Claim C3 witness: the consistency theorem applied to concrete fresh
triggers (identity `get_next` satisfies the croniter contract). -/
theorem waiting_none_iff_not_should_witness :
    Cron.should_trigger { cron := "0 12 * * *", tz := "UTC" } = true
  ∧ 0 ≤ Cron.get_waiting_time_till_next_trigger
        { cron := "0 12 * * *", tz := "UTC" } (fun t => t) 0 :=
  (waiting_none_iff_not_should { _current_loop_count := 0 } { _current_loop_count := 0 }
    { _current_loop_count := 1 } {}
    { first_run_strategy := FirstRunStrategy.wait, seconds := some 1, minutes := none,
      hours := none, days := none, weeks := none, max_loop_count := none,
      _current_loop_count := 0 }
    (by decide) (by decide) (by decide) (by decide) (by decide) (by decide)
    { cron := "0 12 * * *", tz := "UTC" } (fun t => t) (fun t => le_refl t) 0).2.2.2.2.2.2.2.2.2

/-- Claim C4 (corrected): a `wait` trigger's first evaluation returns
`to_seconds` and an `immediate` trigger's first evaluation returns `0`;
from the second evaluation onward the result is `to_seconds` while
`should_trigger()` still holds and `None` once the loop limit is
exhausted. -/
theorem every_waiting_characterization (e : Every)
    (hp : positive_int e.max_loop_count = true) :
    (e.first_run_strategy = FirstRunStrategy.wait → e._current_loop_count = 0 →
        e.get_waiting_time_till_next_trigger = some e.to_seconds)
  ∧ (e.first_run_strategy = FirstRunStrategy.immediate → e._current_loop_count = 0 →
        e.get_waiting_time_till_next_trigger = some 0)
  ∧ (e._current_loop_count ≠ 0 →
        e.get_waiting_time_till_next_trigger
          = if e.should_trigger then some e.to_seconds else none) := by
  refine ⟨?_, ?_, ?_⟩
  · intro hw hc
    unfold Every.get_waiting_time_till_next_trigger
    rw [if_neg (fun hx => by rw [hw] at hx; exact absurd hx.2 (by decide)),
      every_fresh_should e hp hc]
    simp
  · intro hi hc
    unfold Every.get_waiting_time_till_next_trigger
    rw [if_pos (And.intro hc hi)]
  · intro hc
    unfold Every.get_waiting_time_till_next_trigger
    rw [if_neg (fun hx => hc hx.1)]

/-- Claim C4 witness: `Every(seconds=1, immediate)` first returns 0, then 1
after one advance, by the characterization theorem. -/
theorem every_waiting_characterization_witness :
    Every.get_waiting_time_till_next_trigger
      { first_run_strategy := FirstRunStrategy.immediate, seconds := some 1, minutes := none,
        hours := none, days := none, weeks := none, max_loop_count := none,
        _current_loop_count := 0 } = some 0
  ∧ (Every.trigger_next
      { first_run_strategy := FirstRunStrategy.immediate, seconds := some 1, minutes := none,
        hours := none, days := none, weeks := none, max_loop_count := none,
        _current_loop_count := 0 }).get_waiting_time_till_next_trigger = some 1 := by
  constructor
  · exact (every_waiting_characterization _ (by decide)).2.1 rfl rfl
  · exact ((every_waiting_characterization _ (by decide)).2.2 (by decide)).trans (by decide)

end AioclockSpec
